import Mathlib

/-!
Verification development for the romm metadata-enrichment pipeline.

The definitions below are a shallow embedding of the Python source:
  - backend/endpoints/search.py            (multi-provider merge)
  - backend/handler/igdb_handler.py        (legacy IGDB handler: request client,
                                            category fallback, filename-index formats,
                                            Twitch token manager)
  - backend/handler/metadata_handler/igdb_handler.py
                                           (current IGDB handler: get_rom_by_id,
                                            get_matched_roms_by_name, token manager)

External effects (HTTP responses, the redis cache, the local index files and the
wall clock) are passed in explicitly as oracle arguments, so every function is
executable and each branch of the Python code maps to a branch here.
-/

namespace Romm

/-- Placeholder cover URL, the config constant DEFAULT_URL_COVER_L.  Its concrete
value lives in backend/config (outside the provided sources); the claims treat it
as an opaque non-empty string. -/
def DEFAULT_URL_COVER_L : String := "https://placeholder/default_cover_l.png"

/-! ## Python dict model for the merge in endpoints/search.py -/

/-- A JSON-ish value stored under a key of a provider record dict. -/
inductive PyVal where
  | vstr : String → PyVal
  | vlist : List String → PyVal
  | vint : Int → PyVal
  deriving DecidableEq, Repr

/-- Python falsiness of a record value (empty string, empty list, zero). -/
def PyVal.isEmptyVal : PyVal → Bool
  | .vstr s => s = ""
  | .vlist l => l.isEmpty
  | .vint i => i == 0

/-- A provider record as handled by search_rom: a dict that is guaranteed to have
a "name" key (the Python code indexes item["name"], which would raise otherwise).
The "name" key is modelled by the field name; every other key by attrs. -/
structure PyRecord where
  name : String
  attrs : String → Option PyVal

/-- The empty mapping used as the initial merged_dict. -/
def emptyDict : String → Option PyRecord := fun _ => none

/-- Python dict assignment merged_dict[n] = r. -/
def updateDict (md : String → Option PyRecord) (n : String) (r : PyRecord) :
    String → Option PyRecord :=
  fun k => if k = n then some r else md k

/-- Python double-splat merge of two record dicts sharing the same "name":
the second dict's value wins for every key the second dict has (search.py line 56
computes a merge where the IGDB record is splatted last, so its keys override). -/
def pyDictMerge (b a : PyRecord) : PyRecord :=
  { name := a.name
    attrs := fun k =>
      match a.attrs k with
      | some v => some v
      | none => b.attrs k }

/-- merged_dict built from the IGDB result list (dict comprehension keyed by
item["name"]; a later item with the same name overrides an earlier one). -/
def buildIgdbDict (igdb : List PyRecord) : String → Option PyRecord :=
  igdb.foldl (fun md r => updateDict md r.name r) emptyDict

/-- One iteration of the MobyGames merge loop in search_rom:
merged_dict[item["name"]] becomes the splat merge of item under the existing
entry (the existing IGDB-side entry's keys override item's keys). -/
def mobyMergeStep (md : String → Option PyRecord) (item : PyRecord) :
    String → Option PyRecord :=
  match md item.name with
  | some old => updateDict md item.name (pyDictMerge item old)
  | none => updateDict md item.name item

/-- The full merged_dict after folding the MobyGames results over the IGDB dict. -/
def mergeProviders (igdb moby : List PyRecord) : String → Option PyRecord :=
  moby.foldl mobyMergeStep (buildIgdbDict igdb)

/-- The defaults dict splatted first into every merged record (search.py
lines 58-70); "name" is modelled by the PyRecord.name field and therefore
omitted here (its default is overridden by the always-present record name). -/
def defaultAttrs : String → Option PyVal := fun k =>
  if k = "slug" then some (.vstr "")
  else if k = "summary" then some (.vstr "")
  else if k = "url_cover" then some (.vstr DEFAULT_URL_COVER_L)
  else if k = "url_screenshots" then some (.vlist [])
  else none

/-- Completion of one merged record with the default placeholder values:
the record's own keys win, defaults fill the holes. -/
def applyDefaults (r : PyRecord) : PyRecord :=
  { name := r.name
    attrs := fun k =>
      match r.attrs k with
      | some v => some v
      | none => defaultAttrs k }

/-- Value of key k of the final matched_roms record for title n (none when no
record with that title was produced, or the key is absent after defaults). -/
def mergedAttr (igdb moby : List PyRecord) (n k : String) : Option PyVal :=
  (mergeProviders igdb moby n).bind fun r => (applyDefaults r).attrs k

/-! ## Request client: legacy IGDBHandler._request (handler/igdb_handler.py) -/

/-- A raw game row of the games endpoint response (metadata_handler variant:
fields slug, name, summary are requested; each may be absent from a row). -/
structure RawGame where
  name : Option String
  slug : Option String
  summary : Option String
  deriving DecidableEq, Repr

/-- Outcome of one HTTP POST to the provider, as seen by the except clauses. -/
inductive ReqOutcome where
  | ok (body : List RawGame)
  | httpError (code : Nat)
  | timeout
  | connError
  deriving DecidableEq, Repr

/-- Exceptions the request client can let escape to the caller. -/
inductive ReqError where
  | serviceUnavailable
  | connectionError
  deriving DecidableEq, Repr

/-- Observable trace of one _request call: what is returned or raised, how many
token refreshes were performed, how many HTTP attempts were issued and with
which bearer tokens. -/
structure ReqTrace where
  result : Except ReqError (List RawGame)
  refreshes : Nat
  attempts : Nat
  tokensUsed : List String

/-- The second requests.post block of _request: only HTTPError and Timeout are
caught (returning []); a ConnectionError there escapes uncaught. -/
def secondAttempt (tok1 tok2 : String) (refr : Nat) (o2 : ReqOutcome) : ReqTrace :=
  match o2 with
  | .ok body => ⟨.ok body, refr, 2, [tok1, tok2]⟩
  | .httpError _ => ⟨.ok [], refr, 2, [tok1, tok2]⟩
  | .timeout => ⟨.ok [], refr, 2, [tok1, tok2]⟩
  | .connError => ⟨.error .connectionError, refr, 2, [tok1, tok2]⟩

/-- IGDBHandler._request: tok is the bearer token attached to the first attempt,
newTok the token a forced refresh would produce, o1 and o2 the outcomes of the
first and (if reached) second HTTP attempt. -/
def igdbRequest (tok newTok : String) (o1 o2 : ReqOutcome) : ReqTrace :=
  match o1 with
  | .ok body => ⟨.ok body, 0, 1, [tok]⟩
  | .connError => ⟨.error .serviceUnavailable, 0, 1, [tok]⟩
  | .httpError code =>
      if code ≠ 401 then ⟨.ok [], 0, 1, [tok]⟩
      else secondAttempt tok newTok 1 o2
  | .timeout => secondAttempt tok tok 0 o2

/-- Retry outcomes that the second try block catches (HTTPError or Timeout),
after which _request returns an empty list instead of raising. -/
def isCaughtFailure : ReqOutcome → Bool
  | .httpError _ => true
  | .timeout => true
  | _ => false

/-! ## Category fallback: legacy _search_rom query construction -/

def MAIN_GAME_CATEGORY : Nat := 0

def EXPANDED_GAME_CATEGORY : Nat := 10

/-- The IGDB games field list of the legacy handler (GAMES_FIELDS). -/
def GAMES_FIELDS : List String :=
  ["id", "name", "slug", "summary", "total_rating", "aggregated_rating",
   "first_release_date", "artworks.url", "cover.url", "screenshots.url",
   "platforms.id", "platforms.name", "alternative_names.name", "genres.name",
   "franchise.name", "franchises.name", "collections.name", "game_modes.name",
   "involved_companies.company.name",
   "expansions.id", "expansions.slug", "expansions.name", "expansions.cover.url",
   "expanded_games.id", "expanded_games.slug", "expanded_games.name",
   "expanded_games.cover.url",
   "dlcs.id", "dlcs.name", "dlcs.slug", "dlcs.cover.url",
   "remakes.id", "remakes.slug", "remakes.name", "remakes.cover.url",
   "remasters.id", "remasters.slug", "remasters.name", "remasters.cover.url",
   "ports.id", "ports.slug", "ports.name", "ports.cover.url",
   "similar_games.id", "similar_games.slug", "similar_games.name",
   "similar_games.cover.url"]

/-- category_filter of _search_rom: the f-string is produced only when the
category int is truthy, i.e. nonzero. -/
def categoryFilter (category : Nat) : String :=
  if category ≠ 0 then "& category=" ++ toString category else ""

/-- The data string _search_rom sends to the games endpoint. -/
def gamesSearchData (searchTerm : String) (platformIgdbId : Nat) (category : Nat) :
    String :=
  "search \"" ++ searchTerm ++ "\"; fields " ++ String.intercalate "," GAMES_FIELDS
    ++ "; where platforms=[" ++ toString platformIgdbId ++ "] "
    ++ categoryFilter category ++ ";"

/-- Modelled from the spec: the query the claim describes for the first fallback
attempt, with the restriction to the main-game category (category 0) actually
applied.  This definition follows the spec's words and is compared against
gamesSearchData, which is translated from the code. -/
def specMainGameSearchData (searchTerm : String) (platformIgdbId : Nat) : String :=
  "search \"" ++ searchTerm ++ "\"; fields " ++ String.intercalate "," GAMES_FIELDS
    ++ "; where platforms=[" ++ toString platformIgdbId ++ "] "
    ++ "& category=0" ++ ";"

/-- The `a or b or c` fallback chain of get_rom over the three _search_rom
attempts (an empty dict is falsy, so a later attempt runs only if every earlier
one returned empty). -/
def getRomChosen (a1 a2 a3 : Option RawGame) : Option RawGame :=
  match a1 with
  | some r => some r
  | none =>
      match a2 with
      | some r => some r
      | none => a3

/-! ## Lookup-by-id: metadata_handler IGDBHandler.get_rom_by_id -/

/-- A row of the covers endpoint response (field url is always present: the
code indexes cover["url"]). -/
structure RawCover where
  url : String
  deriving DecidableEq, Repr

/-- A row of the screenshots endpoint response (url may be absent; rows without
it are filtered out). -/
structure RawShot where
  url : Option String
  deriving DecidableEq, Repr

/-- _normalize_cover_url of the legacy handler (shared by both handlers). -/
def normalizeCoverUrl (url : String) : String :=
  if url ≠ "" then "https:" ++ url.replace "https:" "" else ""

/-- IGDBHandler._search_cover: default placeholder when the covers query
returned no row, else the normalized url of the first row. -/
def searchCover (covers : List RawCover) : String :=
  match covers.head? with
  | none => DEFAULT_URL_COVER_L
  | some c => normalizeCoverUrl c.url

/-- IGDBHandler._search_screenshots: rows with a url key, normalized and
re-sized to t_original. -/
def searchScreenshots (shots : List RawShot) : List String :=
  shots.filterMap fun r =>
    r.url.map fun u => (normalizeCoverUrl u).replace "t_thumb" "t_original"

/-- The normalized rom record of the metadata_handler (MetadataRom shape). -/
structure MetaRom where
  igdb_id : Int
  slug : String
  name : String
  summary : String
  url_cover : String
  url_screenshots : List String
  deriving DecidableEq, Repr

/-- IGDBHandler.get_rom_by_id of the metadata_handler: gamesResp, coversResp and
shotsResp are the three provider responses (games row for the id, covers rows,
screenshots rows).  rom is the first games row or the empty dict. -/
def getRomById (igdbId : Int) (gamesResp : List RawGame) (coversResp : List RawCover)
    (shotsResp : List RawShot) : MetaRom :=
  let rom := gamesResp.head?
  { igdb_id := igdbId
    slug := ((rom.bind fun r => r.slug).getD "")
    name := ((rom.bind fun r => r.name).getD "")
    summary := ((rom.bind fun r => r.summary).getD "")
    url_cover := searchCover coversResp
    url_screenshots := searchScreenshots shotsResp }

/-! ## Multi-result name search: metadata_handler get_matched_roms_by_name -/

/-- A row of the games search response used by get_matched_roms_by_name
(id, slug and name are indexed directly; summary via .get). -/
structure MatchedRaw where
  id : Int
  slug : String
  name : String
  summary : Option String
  deriving DecidableEq, Repr

/-- Python truthiness of the platform_idgb_id argument (None or 0 is falsy). -/
def pidFalsy : Option Int → Bool
  | none => true
  | some i => i == 0

/-- IGDBHandler.get_matched_roms_by_name of the metadata_handler.  gamesResp is
the games search response; coversFor and shotsFor give the covers/screenshots
responses for each rom id.  The second component counts the provider requests
issued (one games search plus a cover and a screenshots query per row). -/
def getMatchedRomsByName (searchTerm : String) (platformIgdbId : Option Int)
    (gamesResp : List MatchedRaw) (coversFor : Int → List RawCover)
    (shotsFor : Int → List RawShot) : List MetaRom × Nat :=
  if pidFalsy platformIgdbId then ([], 0)
  else
    (gamesResp.map fun r =>
      { igdb_id := r.id
        slug := r.slug
        name := r.name
        summary := r.summary.getD ""
        url_cover := (searchCover (coversFor r.id)).replace "t_thumb" "t_cover_big"
        url_screenshots := searchScreenshots (shotsFor r.id) },
     1 + 2 * gamesResp.length)

/-! ## Token manager: TwitchAuth (legacy and metadata_handler variants) -/

/-- The process-wide token cache: the two redis entries romm:twitch_token and
romm:twitch_token_expires_at (none models an absent key). -/
structure TokenCache where
  token : Option String
  expiresAt : Option ℚ
  deriving DecidableEq, Repr

/-- Python truthiness of the cached token value (absent or empty is falsy). -/
def tokenFalsy : Option String → Bool
  | none => true
  | some t => t = ""

/-- Outcome of the credential-exchange POST to id.twitch.tv as the legacy
_update_twitch_token observes it: an HTTP response carrying a status code and
the parsed access_token / expires_in (after the .get defaults), or a
ConnectionError. -/
inductive ExchangeOutcome where
  | resp (status : Nat) (accessToken : String) (expiresIn : ℚ)
  | connError
  deriving DecidableEq, Repr

/-- Legacy TwitchAuth._update_twitch_token: returns the token string it hands
back together with the cache state afterwards.  now is the wall-clock instant
at which the expiry is computed. -/
def updateTwitchToken (now : ℚ) (c : TokenCache) (o : ExchangeOutcome) :
    String × TokenCache :=
  match o with
  | .connError => ("", c)
  | .resp status tok dur =>
      if status = 400 then ("", c)
      else if tok = "" ∨ dur = 0 then (tok, c)
      else (tok, ⟨some tok, some (now + dur - 10)⟩)

/-- TwitchAuth.get_oauth_token: returns the token handed to the caller, the
cache afterwards, and whether a credential exchange was performed.  pytestMode
models the "pytest" in sys.modules bypass; o is the exchange outcome used if a
refresh happens.  The refresh condition is the code's
not token or time.time() > float(token_expires_at or 0). -/
def getOauthToken (pytestMode : Bool) (now : ℚ) (c : TokenCache)
    (o : ExchangeOutcome) : String × TokenCache × Bool :=
  if pytestMode then ("test_token", c, false)
  else if tokenFalsy c.token = true ∨ c.expiresAt.getD 0 < now then
    let p := updateTwitchToken now c o
    (p.1, p.2, true)
  else (c.token.getD "", c, false)

/-- Result of the metadata_handler TwitchAuth._update_twitch_token: either the
process exits fatally (sys.exit(2)) or a token is returned and cached. -/
inductive UpdateOutcome where
  | fatalExit (code : Nat)
  | okToken (token : String) (newCache : TokenCache)
  deriving DecidableEq, Repr

/-- metadata_handler TwitchAuth._update_twitch_token: accessToken and expiresIn
are the response fields after the .get defaults ("" and 0); a missing token or
zero expiry aborts the process with exit code 2. -/
def updateTwitchTokenMH (now : ℚ) (accessToken : String) (expiresIn : ℚ) :
    UpdateOutcome :=
  if accessToken = "" ∨ expiresIn = 0 then .fatalExit 2
  else .okToken accessToken ⟨some accessToken, some (now + expiresIn - 10)⟩

/-! ## Filename-index lookups (legacy handler format helpers) -/

/-- An entry of the ps2_opl_index.json mapping (the code reads entry["Name"]). -/
structure OplEntry where
  Name : String
  deriving DecidableEq, Repr

/-- An entry of the Switch titledb / product-id mappings (entry["name"]). -/
structure TitleEntry where
  name : String
  deriving DecidableEq, Repr

/-- A game element of the parsed MAME XML list (attribute name plus an optional
description element). -/
structure MameGame where
  atName : String
  description : Option String
  deriving DecidableEq, Repr

/-- First-match lookup in an index mapping, the dict .get of the loaded JSON. -/
def lookupIndex {α : Type} (idx : List (String × α)) (key : String) : Option α :=
  (idx.find? fun p => p.1 == key).map Prod.snd

/-- Exceptions the format helpers can let escape (a FileNotFoundError from an
unguarded open). -/
inductive FileErr where
  | fileNotFound
  deriving DecidableEq, Repr

/-- Observable trace of one format helper call: the returned search term (or
the escaped exception) and how many remote refreshes were triggered. -/
structure FmtResult where
  result : Except FileErr String
  refreshes : Nat

/-- _ps2_opl_format: the index file is opened with no exception handling and no
refresh task exists for it, so a missing file raises to the caller.  file is
the local index file content (none when missing). -/
def ps2OplFormat (file : Option (List (String × OplEntry)))
    (serialCode searchTerm : String) : FmtResult :=
  match file with
  | none => ⟨.error .fileNotFound, 0⟩
  | some idx =>
      ⟨.ok (match lookupIndex idx serialCode with
            | some e => e.Name
            | none => searchTerm), 0⟩

/-- The finally-block lookup shared by the Switch helpers: replace the term by
the indexed name when the id is found. -/
def applyTitleLookup (idx : List (String × TitleEntry)) (id term : String) :
    String :=
  match lookupIndex idx id with
  | some e => e.name
  | none => term

/-- _switch_titledb_format: file1 is the local index before the refresh, file2
the local index after update_switch_titledb_task ran (consulted only when the
first open raised FileNotFoundError); when both are missing the finally block
runs on the empty index and the term passes through. -/
def switchTitledbFormat (file1 file2 : Option (List (String × TitleEntry)))
    (titleId searchTerm : String) : FmtResult :=
  match file1 with
  | some idx => ⟨.ok (applyTitleLookup idx titleId searchTerm), 0⟩
  | none =>
      match file2 with
      | some idx => ⟨.ok (applyTitleLookup idx titleId searchTerm), 1⟩
      | none => ⟨.ok searchTerm, 1⟩

/-- The update-variant masking of _switch_productid_format: character at
position len-3 of the product id is forced to 0. -/
def maskProductId (productId : String) : String :=
  let cs := productId.toList
  String.mk (cs.set (cs.length - 3) '0')

/-- _switch_productid_format: same refresh-then-retry structure as the titledb
helper, looking up the masked product id. -/
def switchProductIdFormat (file1 file2 : Option (List (String × TitleEntry)))
    (productId searchTerm : String) : FmtResult :=
  let pid := maskProductId productId
  match file1 with
  | some idx => ⟨.ok (applyTitleLookup idx pid searchTerm), 0⟩
  | none =>
      match file2 with
      | some idx => ⟨.ok (applyTitleLookup idx pid searchTerm), 1⟩
      | none => ⟨.ok searchTerm, 1⟩

/-- The finally-block lookup of _mame_format: first game whose name attribute
equals the term; its description (run through the external tag-stripping
utility get_file_name_with_no_tags, passed in as stripTags) replaces the term. -/
def applyMameLookup (games : List MameGame) (stripTags : String → String)
    (term : String) : String :=
  match games.find? fun g => g.atName == term with
  | some g => stripTags (g.description.getD term)
  | none => term

/-- _mame_format: refresh-then-retry structure over the MAME XML game list;
when both loads fail the initial empty game list is used and the term passes
through. -/
def mameFormat (file1 file2 : Option (List MameGame))
    (stripTags : String → String) (searchTerm : String) : FmtResult :=
  match file1 with
  | some games => ⟨.ok (applyMameLookup games stripTags searchTerm), 0⟩
  | none =>
      match file2 with
      | some games => ⟨.ok (applyMameLookup games stripTags searchTerm), 1⟩
      | none => ⟨.ok searchTerm, 1⟩

/-! ## Theorems -/

/-- Helper: one Moby merge step keeps every key already present in the entry
stored under a title (the stored entry is splatted last, so its keys win). -/
theorem mobyMergeStep_preserves (md : String → Option PyRecord) (item : PyRecord)
    (n k : String) (A : PyRecord) (v : PyVal)
    (h : md n = some A) (hk : A.attrs k = some v) :
    ∃ C, mobyMergeStep md item n = some C ∧ C.attrs k = some v := by
  unfold mobyMergeStep
  by_cases hn : item.name = n
  · subst hn
    refine ⟨pyDictMerge item A, ?_, ?_⟩
    · simp [h, updateDict]
    · simp [pyDictMerge, hk]
  · refine ⟨A, ?_, hk⟩
    have hne : ¬ n = item.name := fun heq => hn heq.symm
    cases hmd : md item.name with
    | none => simp [hmd, updateDict, hne, h]
    | some old => simp [hmd, updateDict, hne, h]

/-- Helper: folding the whole Moby list keeps every key already present in the
entry stored under a title. -/
theorem mergeFold_preserves (moby : List PyRecord) (md : String → Option PyRecord)
    (n k : String) (A : PyRecord) (v : PyVal)
    (h : md n = some A) (hk : A.attrs k = some v) :
    ∃ C, moby.foldl mobyMergeStep md n = some C ∧ C.attrs k = some v := by
  induction moby generalizing md A with
  | nil => exact ⟨A, h, hk⟩
  | cons item rest ih =>
      obtain ⟨C, hC, hCk⟩ := mobyMergeStep_preserves md item n k A v h hk
      exact ih (mobyMergeStep md item) C hC hCk

/-- Helper: applying the defaults dict keeps every key the record already has. -/
theorem applyDefaults_preserves (r : PyRecord) (k : String) (v : PyVal)
    (h : r.attrs k = some v) : (applyDefaults r).attrs k = some v := by
  simp [applyDefaults, h]

/-- C9: the multi-provider merge is idempotent on field precedence: every
non-empty field of the record the first provider (IGDB) contributed for a title
appears unchanged in the final merged record for that title, whatever the later
provider's records hold for those same fields. -/
theorem firstProvider_fields_unchanged (igdb moby : List PyRecord) (n k : String)
    (A : PyRecord) (v : PyVal)
    (hA : buildIgdbDict igdb n = some A) (hk : A.attrs k = some v)
    (_hne : v.isEmptyVal = false) :
    mergedAttr igdb moby n k = some v := by
  obtain ⟨C, hC, hCk⟩ := mergeFold_preserves moby (buildIgdbDict igdb) n k A v hA hk
  unfold mergedAttr mergeProviders
  rw [hC]
  simpa using applyDefaults_preserves C k v hCk

def c9IgdbRec : PyRecord :=
  ⟨"X", fun k => if k = "url_cover" then some (.vstr "https://a.png") else none⟩

def c9MobyRec : PyRecord :=
  ⟨"X", fun k => if k = "url_cover" then some (.vstr "https://b.png") else none⟩

/-- Witness for C9 at a concrete pair of colliding records. -/
theorem firstProvider_fields_unchanged_witness :
    mergedAttr [c9IgdbRec] [c9MobyRec] "X" "url_cover"
      = some (PyVal.vstr "https://a.png") :=
  firstProvider_fields_unchanged [c9IgdbRec] [c9MobyRec] "X" "url_cover"
    c9IgdbRec (PyVal.vstr "https://a.png") rfl rfl rfl

def c1IgdbRec : PyRecord :=
  ⟨"X", fun k => if k = "url_cover" then some (.vstr "") else none⟩

def c1MobyRec : PyRecord :=
  ⟨"X", fun k => if k = "url_cover" then some (.vstr "url") else none⟩

/-- C1 counterexample: when the first provider's record carries the cover key
with an empty-string value and the later provider's record for the same title
carries cover "url", the merged record's cover is the empty string, not "url"
(the splat merge lets every present IGDB key win, empty or not), refuting the
claim's example. -/
theorem merge_empty_field_not_filled :
    mergedAttr [c1IgdbRec] [c1MobyRec] "X" "url_cover" = some (PyVal.vstr "") ∧
    mergedAttr [c1IgdbRec] [c1MobyRec] "X" "url_cover" ≠ some (PyVal.vstr "url") := by
  constructor
  · rfl
  · intro h
    rw [show mergedAttr [c1IgdbRec] [c1MobyRec] "X" "url_cover"
          = some (PyVal.vstr "") from rfl] at h
    simp at h

def c1wIgdbRec : PyRecord := ⟨"X", fun _ => none⟩

def c1wMobyRec : PyRecord :=
  ⟨"X", fun k => if k = "url_cover" then some (.vstr "url") else none⟩

/-- C1 (amended): for a title both providers returned, the merged record takes
the later provider's value for exactly the keys absent from the first
provider's record; every key present in the first provider's record (even with
an empty value) keeps the first provider's value. -/
theorem merge_fills_only_missing_fields (igdb : List PyRecord) (B : PyRecord)
    (n k : String) (A : PyRecord)
    (hA : buildIgdbDict igdb n = some A) (hB : B.name = n) :
    (∀ v, A.attrs k = some v → mergedAttr igdb [B] n k = some v) ∧
    (A.attrs k = none → ∀ v, B.attrs k = some v → mergedAttr igdb [B] n k = some v) := by
  have hstep : mergeProviders igdb [B] n = some (pyDictMerge B A) := by
    unfold mergeProviders
    simp only [List.foldl]
    unfold mobyMergeStep
    rw [hB, hA]
    simp [updateDict]
  constructor
  · intro v hv
    unfold mergedAttr
    rw [hstep]
    have : (pyDictMerge B A).attrs k = some v := by simp [pyDictMerge, hv]
    simpa using applyDefaults_preserves _ k v this
  · intro hnone v hv
    unfold mergedAttr
    rw [hstep]
    have : (pyDictMerge B A).attrs k = some v := by simp [pyDictMerge, hnone, hv]
    simpa using applyDefaults_preserves _ k v this

/-- Witness for the amended C1 at concrete records: the IGDB record lacks the
cover key entirely, so the Moby value fills it. -/
theorem merge_fills_only_missing_fields_witness :
    mergedAttr [c1wIgdbRec] [c1wMobyRec] "X" "url_cover" = some (PyVal.vstr "url") :=
  (merge_fills_only_missing_fields [c1wIgdbRec] c1wMobyRec "X" "url_cover"
    c1wIgdbRec rfl rfl).2 rfl (PyVal.vstr "url") rfl

/-- C2: the code does not restrict the first fallback attempt to the main-game
category.  MAIN_GAME_CATEGORY is 0, and the truthiness test in category_filter
drops the filter for 0, so the first attempt's query equals the category-free
query of the third attempt (default category 0) and differs from the
main-game-restricted query the claim describes; the expanded-game attempt does
carry its filter. -/
theorem main_category_attempt_unrestricted :
    categoryFilter MAIN_GAME_CATEGORY = "" ∧
    (∀ t p, gamesSearchData t p MAIN_GAME_CATEGORY = gamesSearchData t p 0) ∧
    categoryFilter EXPANDED_GAME_CATEGORY = "& category=10" ∧
    (specMainGameSearchData "Halo" 8).length
      = (gamesSearchData "Halo" 8 MAIN_GAME_CATEGORY).length + 12 := by
  refine ⟨rfl, fun t p => rfl, rfl, ?_⟩
  simp only [gamesSearchData, specMainGameSearchData,
    show categoryFilter MAIN_GAME_CATEGORY = "" from rfl,
    String.length_append,
    show String.length "" = 0 from rfl,
    show String.length "& category=0" = 12 from rfl]
  omega

/-- C3: on an HTTP 401 first response the request client refreshes the token
exactly once, retries exactly once with the refreshed token, and if the retry
fails with an HTTP error (such as a second 401) or a timeout it returns the
empty list to the caller instead of raising. -/
theorem unauthorized_single_refresh_retry (tok newTok : String) (o2 : ReqOutcome) :
    (igdbRequest tok newTok (.httpError 401) o2).refreshes = 1 ∧
    (igdbRequest tok newTok (.httpError 401) o2).attempts = 2 ∧
    (igdbRequest tok newTok (.httpError 401) o2).tokensUsed = [tok, newTok] ∧
    (isCaughtFailure o2 = true →
      (igdbRequest tok newTok (.httpError 401) o2).result = .ok []) := by
  cases o2 <;> simp [igdbRequest, secondAttempt, isCaughtFailure]

/-- Witness for C3: two 401 responses in a row yield the empty list after one
refresh and one retry carrying the refreshed token. -/
theorem unauthorized_single_refresh_retry_witness :
    (igdbRequest "tokA" "tokB" (.httpError 401) (.httpError 401)).result = .ok [] ∧
    (igdbRequest "tokA" "tokB" (.httpError 401) (.httpError 401)).refreshes = 1 ∧
    (igdbRequest "tokA" "tokB" (.httpError 401) (.httpError 401)).tokensUsed
      = ["tokA", "tokB"] :=
  ⟨(unauthorized_single_refresh_retry "tokA" "tokB" (.httpError 401)).2.2.2 rfl,
   (unauthorized_single_refresh_retry "tokA" "tokB" (.httpError 401)).1,
   (unauthorized_single_refresh_retry "tokA" "tokB" (.httpError 401)).2.2.1⟩

/-- C8: a connection failure makes the request client raise the
service-unavailable condition (HTTPException 503), an outcome distinct from the
empty-list result returned for other HTTP errors and data misses. -/
theorem connection_failure_raises (tok newTok : String) (o2 : ReqOutcome)
    (code : Nat) (hc : code ≠ 401) :
    (igdbRequest tok newTok .connError o2).result = .error .serviceUnavailable ∧
    (igdbRequest tok newTok (.httpError code) o2).result = .ok [] ∧
    (Except.error ReqError.serviceUnavailable
      ≠ (Except.ok [] : Except ReqError (List RawGame))) := by
  refine ⟨rfl, ?_, by simp⟩
  simp [igdbRequest, hc]

/-- Witness for C8: a connection failure versus a plain HTTP 500. -/
theorem connection_failure_raises_witness :
    (igdbRequest "tokA" "tokB" .connError .timeout).result
      = .error .serviceUnavailable ∧
    (igdbRequest "tokA" "tokB" (.httpError 500) .timeout).result = .ok [] :=
  ⟨(connection_failure_raises "tokA" "tokB" .timeout 500 (by decide)).1,
   (connection_failure_raises "tokA" "tokB" .timeout 500 (by decide)).2.1⟩

/-- C4: get_rom_by_id always returns one record whose igdb_id equals the input
id, and when the id resolves to nothing at the provider (all three responses
empty) the name, slug and summary are empty strings, the screenshot list is
empty and the cover is the default placeholder. -/
theorem getRomById_identity_and_defaults (igdbId : Int) (games : List RawGame)
    (covers : List RawCover) (shots : List RawShot) :
    (getRomById igdbId games covers shots).igdb_id = igdbId ∧
    (games = [] → covers = [] → shots = [] →
      getRomById igdbId games covers shots =
        ⟨igdbId, "", "", "", DEFAULT_URL_COVER_L, []⟩) := by
  constructor
  · rfl
  · intro hg hc hs
    subst hg; subst hc; subst hs
    rfl

/-- Witness for C4 at a nonexistent id. -/
theorem getRomById_identity_and_defaults_witness :
    getRomById 987654321 [] [] [] = ⟨987654321, "", "", "", DEFAULT_URL_COVER_L, []⟩ :=
  (getRomById_identity_and_defaults 987654321 [] [] []).2 rfl rfl rfl

/-- C10: a falsy platform provider id (None or 0) makes get_matched_roms_by_name
return the empty list immediately, issuing zero provider requests. -/
theorem matched_by_name_falsy_platform (term : String) (pid : Option Int)
    (games : List MatchedRaw) (coversFor : Int → List RawCover)
    (shotsFor : Int → List RawShot) (h : pidFalsy pid = true) :
    getMatchedRomsByName term pid games coversFor shotsFor = ([], 0) := by
  simp [getMatchedRomsByName, h]

/-- Witness for C10 at platform id None. -/
theorem matched_by_name_falsy_platform_witness :
    getMatchedRomsByName "Halo" none
      [⟨1, "halo", "Halo", none⟩] (fun _ => []) (fun _ => []) = ([], 0) :=
  matched_by_name_falsy_platform "Halo" none
    [⟨1, "halo", "Halo", none⟩] (fun _ => []) (fun _ => []) rfl

/-- C5 counterexample: the disc-serial (PS2 OPL) lookup opens its index file
with no exception handling and has no refresh task, so with the local file
missing it performs zero refreshes and raises FileNotFoundError to the caller
instead of passing the term through. -/
theorem ps2Opl_missing_file_raises :
    (ps2OplFormat none "SCUS_971.98" "Some Game").result
      = Except.error FileErr.fileNotFound ∧
    (ps2OplFormat none "SCUS_971.98" "Some Game").refreshes = 0 :=
  ⟨rfl, rfl⟩

/-- C5 (amended): the Switch title-id, Switch product-id and arcade-set lookups
do behave as the claim states: on a missing local file exactly one refresh and
one further load are attempted; if the file is still missing the lookup is a
no-op, the unresolved search term passes through and nothing is raised (and a
successful post-refresh load serves the lookup).  The disc-serial lookup is the
exception: it attempts no refresh and propagates the missing-file error. -/
theorem index_lookup_refresh_then_passthrough (titleId productId term : String)
    (stripTags : String → String) (idx : List (String × TitleEntry)) :
    switchTitledbFormat none none titleId term = ⟨.ok term, 1⟩ ∧
    switchProductIdFormat none none productId term = ⟨.ok term, 1⟩ ∧
    mameFormat none none stripTags term = ⟨.ok term, 1⟩ ∧
    switchTitledbFormat none (some idx) titleId term
      = ⟨.ok (applyTitleLookup idx titleId term), 1⟩ ∧
    (ps2OplFormat none "SCUS_971.98" term).refreshes = 0 := by
  exact ⟨rfl, rfl, rfl, rfl, rfl⟩

/-- The concrete cache of the C6 counterexample: a token cached with expiry
instant exactly 100. -/
def c6Cache : TokenCache := ⟨some "cached", some 100⟩

/-- C6 counterexample: at now equal to the cached expiry instant (so not
strictly before it) the code still returns the cached token unchanged and
performs no credential exchange, because its refresh test is the strict
time.time() > expiry; the claim's "otherwise obtain a new token" branch demands
an exchange here. -/
theorem token_boundary_no_refresh :
    getOauthToken false 100 c6Cache (.resp 200 "fresh" 3600)
      = ("cached", c6Cache, false) ∧
    ¬ ((100 : ℚ) < 100) := by
  constructor
  · rfl
  · simp

/-- C6 (amended): the cached token is returned unchanged with no credential
exchange when it exists and now is at or before (not strictly before) the
cached expiry; only when the token is missing/empty or now is strictly after
the expiry is a new token obtained from the credential exchange, cached with
expiry now + duration - 10 seconds, and returned. -/
theorem getOauthToken_cache_policy (now : ℚ) (t : String) (e : ℚ)
    (c : TokenCache) (st : Nat) (tok : String) (dur : ℚ)
    (o : ExchangeOutcome) :
    (t ≠ "" → now ≤ e →
      getOauthToken false now ⟨some t, some e⟩ o = (t, ⟨some t, some e⟩, false)) ∧
    ((tokenFalsy c.token = true ∨ c.expiresAt.getD 0 < now) →
      st ≠ 400 → tok ≠ "" → dur ≠ 0 →
      getOauthToken false now c (.resp st tok dur)
        = (tok, ⟨some tok, some (now + dur - 10)⟩, true)) := by
  constructor
  · intro ht hle
    simp [getOauthToken, tokenFalsy, ht]
    exact hle
  · intro hcond hst htok hdur
    have : tokenFalsy c.token = true ∨ c.expiresAt.getD 0 < now := hcond
    simp only [getOauthToken, if_neg Bool.false_ne_true]
    rw [if_pos this]
    simp [updateTwitchToken, hst, htok, hdur]

/-- Witness for the amended C6: a valid cached token at now below expiry is
served from cache; an empty cache at the same instant triggers the exchange and
caches expiry now + 3600 - 10. -/
theorem getOauthToken_cache_policy_witness :
    getOauthToken false 50 ⟨some "cached", some 100⟩ (.resp 200 "fresh" 3600)
      = ("cached", ⟨some "cached", some 100⟩, false) ∧
    getOauthToken false 50 ⟨none, none⟩ (.resp 200 "fresh" 3600)
      = ("fresh", ⟨some "fresh", some (50 + 3600 - 10)⟩, true) :=
  ⟨(getOauthToken_cache_policy 50 "cached" 100 ⟨none, none⟩ 200 "fresh" 3600
      (.resp 200 "fresh" 3600)).1 (by decide) (by norm_num),
   (getOauthToken_cache_policy 50 "cached" 100 ⟨none, none⟩ 200 "fresh" 3600
      (.resp 200 "fresh" 3600)).2 (Or.inl rfl) (by decide) (by decide) (by norm_num)⟩

/-- C7: a credential exchange whose parsed response carries no access token or a
zero expiry duration aborts the process fatally (sys.exit(2)); the fatal
outcome is not a token-returning outcome, so no degraded or empty token ever
reaches the caller. -/
theorem update_token_fatal_on_bad_exchange (now : ℚ) (tok : String) (dur : ℚ)
    (h : tok = "" ∨ dur = 0) :
    updateTwitchTokenMH now tok dur = .fatalExit 2 ∧
    (∀ t c, UpdateOutcome.fatalExit 2 ≠ UpdateOutcome.okToken t c) := by
  refine ⟨?_, fun t c => by simp⟩
  simp [updateTwitchTokenMH, h]

/-- Witness for C7: the empty-token response of a bad-credentials exchange. -/
theorem update_token_fatal_on_bad_exchange_witness :
    updateTwitchTokenMH 50 "" 0 = .fatalExit 2 :=
  (update_token_fatal_on_bad_exchange 50 "" 0 (Or.inl rfl)).1

end Romm
